import Mathlib

/-!
Shallow embedding of the bdk-ffi binding layer.

The embedding covers the two source files of the repository: the uniffi
binding in `src/lib.rs` (Wallet, PartiallySignedBitcoinTransaction, TxBuilder,
key helpers) and the newer `bdk-ffi/src/lib.rs` (AddressIndex conversions).
Everything the binding delegates to the external bdk engine (PSBT codec,
BIP-39, BIP-32, address parsing, tx building, broadcasting) appears as an
abstract structure of operations; the binding's own code is translated
line by line.  Rust snippets that can panic (an `unwrap` on an `Err`) are
embedded with an explicit `Outcome` type distinguishing a panic from a
returned error.
-/

namespace BdkFfi

/-- Bitcoin network selector, mirroring `bdk::bitcoin::Network`. -/
inductive Network where
  | bitcoin
  | testnet
  | signet
  | regtest
deriving DecidableEq

/-- BIP-39 word-count selector, mirroring `bdk::keys::bip39::WordCount`. -/
inductive WordCount where
  | words12
  | words15
  | words18
  | words21
  | words24
deriving DecidableEq

/-- The binding's flat error type (`bdk::Error`).  The binding itself only
constructs the `Generic` variant; every other engine-originated variant is
collapsed into `engine`, carrying its rendered message, since the binding
treats them opaquely and propagates them unchanged. -/
inductive BdkError where
  | Generic (msg : String)
  | engine (msg : String)
deriving DecidableEq

/-- Result of running a Rust snippet that may panic (an `unwrap` on an `Err`
or a `panic!`) or return an error (the `?` operator): `panic` is an abort of
the call, `err` a returned `Err`, `ok` a returned `Ok`. -/
inductive Outcome (α : Type) where
  | panic
  | err (e : BdkError)
  | ok (a : α)
deriving DecidableEq

/-- The first string occurs as a contiguous substring of the second. -/
def ContainsSubstr (needle hay : String) : Prop :=
  List.IsInfix needle.data hay.data

instance (needle hay : String) : Decidable (ContainsSubstr needle hay) := by
  unfold ContainsSubstr
  infer_instance

/-- Appending strings concatenates their character data. -/
theorem string_data_append (a b : String) : (a ++ b).data = a.data ++ b.data :=
  rfl

/-! ### AddressIndex conversions (`bdk-ffi/src/lib.rs`, lines 62-120) -/

/-- The binding's `AddressIndex` enum: New, LastUnused, Peek with a `u32`
index. -/
inductive AddressIndex where
  | new
  | lastUnused
  | peek (index : Nat)
deriving DecidableEq

/-- The engine's `bdk::wallet::AddressIndex`.  From the binding's point of
view it is non-exhaustive (the reverse conversion has a wildcard arm); the
`reset` constructor stands for the engine variants beyond the three the
binding constructs. -/
inductive BdkAddressIndex where
  | new
  | lastUnused
  | peek (index : Nat)
  | reset (index : Nat)
deriving DecidableEq

/-- Conversion `From<AddressIndex> for BdkAddressIndex` (lines 81-89):
total, the Peek index carried verbatim. -/
def addressIndexToBdk : AddressIndex → BdkAddressIndex
  | .new => .new
  | .lastUnused => .lastUnused
  | .peek index => .peek index

/-- Conversion `From<BdkAddressIndex> for AddressIndex` (lines 102-110):
New and LastUnused map across, every other engine variant hits the wildcard
arm, which is `panic!("Mmmm not working")`. -/
def addressIndexFromBdk : BdkAddressIndex → Outcome AddressIndex
  | .new => .ok .new
  | .lastUnused => .ok .lastUnused
  | .peek _ => .panic
  | .reset _ => .panic

/-! ### TxBuilder (`src/lib.rs`, lines 286-339)

The builder stores an `f32` fee rate; no arithmetic is ever performed on it
by the binding (it is copied verbatim and finally handed to the engine), so
the embedding is polymorphic in the fee-rate type `φ`. -/

/-- The binding's `TxBuilder` record (lines 286-291). -/
structure TxBuilder (φ : Type) where
  recipients : List (String × Nat)
  fee_rate : Option φ
  drain_wallet : Bool
  drain_to : Option String
deriving DecidableEq

/-- Constructor `TxBuilder::new` (lines 294-301). -/
def TxBuilder.new (φ : Type) : TxBuilder φ :=
  { recipients := []
    fee_rate := none
    drain_wallet := false
    drain_to := none }

/-- Method `TxBuilder::add_recipient` (lines 303-312): copies the builder and
appends one (address, amount) pair to the copy's recipients. -/
def TxBuilder.add_recipient (b : TxBuilder φ) (recipient : String) (amount : Nat) :
    TxBuilder φ :=
  { recipients := b.recipients ++ [(recipient, amount)]
    fee_rate := b.fee_rate
    drain_wallet := b.drain_wallet
    drain_to := b.drain_to }

/-- Method `TxBuilder::fee_rate` (lines 314-321), named `feeRate` here because
Lean reserves `TxBuilder.fee_rate` for the field projection. -/
def TxBuilder.feeRate (b : TxBuilder φ) (sat_per_vb : φ) : TxBuilder φ :=
  { recipients := b.recipients
    fee_rate := some sat_per_vb
    drain_wallet := b.drain_wallet
    drain_to := b.drain_to }

/-- Method `TxBuilder::drain_wallet` (lines 323-330), named `drainWallet` here
because Lean reserves `TxBuilder.drain_wallet` for the field projection. -/
def TxBuilder.drainWallet (b : TxBuilder φ) : TxBuilder φ :=
  { recipients := b.recipients
    fee_rate := b.fee_rate
    drain_wallet := true
    drain_to := b.drain_to }

/-- Method `TxBuilder::drain_to` (lines 332-339), named `drainTo` here because
Lean reserves `TxBuilder.drain_to` for the field projection. -/
def TxBuilder.drainTo (b : TxBuilder φ) (address : String) : TxBuilder φ :=
  { recipients := b.recipients
    fee_rate := b.fee_rate
    drain_wallet := b.drain_wallet
    drain_to := some address }

/-- One configuration call on a `TxBuilder`. -/
inductive ConfigCall (φ : Type) where
  | addRecipient (address : String) (amount : Nat)
  | feeRate (sat_per_vb : φ)
  | drainWallet
  | drainTo (address : String)
deriving DecidableEq

/-- Dispatch one configuration call to the corresponding builder method. -/
def applyCall (b : TxBuilder φ) : ConfigCall φ → TxBuilder φ
  | .addRecipient address amount => b.add_recipient address amount
  | .feeRate sat_per_vb => b.feeRate sat_per_vb
  | .drainWallet => b.drainWallet
  | .drainTo address => b.drainTo address

/-- Run a sequence of configuration calls in order. -/
def applyCalls (b : TxBuilder φ) (cs : List (ConfigCall φ)) : TxBuilder φ :=
  cs.foldl applyCall b

/-- Accumulation of the recipients field as the spec words it: the
(address, amount) pairs of the addRecipient calls, in order. -/
def accumRecipients : List (ConfigCall φ) → List (String × Nat)
  | [] => []
  | .addRecipient address amount :: cs => (address, amount) :: accumRecipients cs
  | _ :: cs => accumRecipients cs

/-- Accumulation of the fee_rate field: the last feeRate call wins. -/
def accumFeeRate (init : Option φ) : List (ConfigCall φ) → Option φ
  | [] => init
  | .feeRate sat_per_vb :: cs => accumFeeRate (some sat_per_vb) cs
  | _ :: cs => accumFeeRate init cs

/-- Accumulation of the drain_wallet field: set once any drainWallet call
occurs. -/
def accumDrainWallet (init : Bool) : List (ConfigCall φ) → Bool
  | [] => init
  | .drainWallet :: cs => accumDrainWallet true cs
  | _ :: cs => accumDrainWallet init cs

/-- Accumulation of the drain_to field: the last drainTo call wins. -/
def accumDrainTo (init : Option String) : List (ConfigCall φ) → Option String
  | [] => init
  | .drainTo address :: cs => accumDrainTo (some address) cs
  | _ :: cs => accumDrainTo init cs

/-! ### Wallet::new configuration narrowing (`src/lib.rs`, lines 25-50, 134-177) -/

/-- Sled database configuration record. -/
structure SledDbConfiguration where
  path : String
  tree_name : String
deriving DecidableEq

/-- Sqlite database configuration record. -/
structure SqliteDbConfiguration where
  path : String
deriving DecidableEq

/-- The binding's `DatabaseConfig` variant (lines 25-29). -/
inductive DatabaseConfig where
  | memory
  | sled (config : SledDbConfiguration)
  | sqlite (config : SqliteDbConfiguration)
deriving DecidableEq

/-- The binding's `ElectrumConfig` record (lines 31-37); `stop_gap` is a `u64`,
embedded as a `Nat` below `2 ^ 64`. -/
structure ElectrumConfig where
  url : String
  socks5 : Option String
  retry : Nat
  timeout : Option Nat
  stop_gap : Nat
deriving DecidableEq

/-- The binding's `EsploraConfig` record (lines 39-45); `stop_gap` is a `u64`. -/
structure EsploraConfig where
  base_url : String
  proxy : Option String
  timeout_read : Nat
  timeout_write : Nat
  stop_gap : Nat
deriving DecidableEq

/-- The binding's `BlockchainConfig` variant (lines 47-50). -/
inductive BlockchainConfig where
  | electrum (config : ElectrumConfig)
  | esplora (config : EsploraConfig)
deriving DecidableEq

/-- Engine-side `ElectrumBlockchainConfig`: its `stop_gap` is a `usize`. -/
structure ElectrumBlockchainConfig where
  retry : Nat
  socks5 : Option String
  timeout : Option Nat
  url : String
  stop_gap : Nat
deriving DecidableEq

/-- Engine-side `EsploraBlockchainConfig`: its `stop_gap` is a `usize`. -/
structure EsploraBlockchainConfig where
  base_url : String
  proxy : Option String
  timeout_read : Nat
  timeout_write : Nat
  stop_gap : Nat
deriving DecidableEq

/-- Engine-side `AnyBlockchainConfig`. -/
inductive AnyBlockchainConfig where
  | electrum (config : ElectrumBlockchainConfig)
  | esplora (config : EsploraBlockchainConfig)
deriving DecidableEq

/-- Engine-side `AnyDatabaseConfig`. -/
inductive AnyDatabaseConfig where
  | memory
  | sled (config : SledDbConfiguration)
  | sqlite (config : SqliteDbConfiguration)
deriving DecidableEq

/-- Rust's `usize::try_from` applied to a `u64` value on a platform whose
`usize` is `wordBits` bits wide: succeeds with the value unchanged exactly
when it fits, otherwise returns no value (an `Err(TryFromIntError)`). -/
def usizeTryFrom (wordBits v : Nat) : Option Nat :=
  if v < 2 ^ wordBits then some v else none

/-- The database-config match of `Wallet::new` (lines 142-146): total,
field-for-field. -/
def convertDatabaseConfig : DatabaseConfig → AnyDatabaseConfig
  | .memory => .memory
  | .sled config => .sled config
  | .sqlite config => .sqlite config

/-- The blockchain-config match of `Wallet::new` (lines 147-166).  The
`usize::try_from(config.stop_gap).unwrap()` panics when the `u64` value does
not fit in `usize`; otherwise the fields are copied verbatim. -/
def convertBlockchainConfig (wordBits : Nat) : BlockchainConfig → Outcome AnyBlockchainConfig
  | .electrum config =>
    match usizeTryFrom wordBits config.stop_gap with
    | none => .panic
    | some g =>
      .ok (.electrum
        { retry := config.retry
          socks5 := config.socks5
          timeout := config.timeout
          url := config.url
          stop_gap := g })
  | .esplora config =>
    match usizeTryFrom wordBits config.stop_gap with
    | none => .panic
    | some g =>
      .ok (.esplora
        { base_url := config.base_url
          proxy := config.proxy
          timeout_read := config.timeout_read
          timeout_write := config.timeout_write
          stop_gap := g })

/-- The engine operations `Wallet::new` delegates to, abstract:
`AnyDatabase::from_config`, `AnyBlockchain::from_config` and
`BdkWallet::new`.  The type parameters are the engine's database, blockchain
and wallet types. -/
structure WalletEngine (δ β ω : Type) where
  databaseFromConfig : AnyDatabaseConfig → Except BdkError δ
  blockchainFromConfig : AnyBlockchainConfig → Except BdkError β
  walletNew : String → Option String → Network → δ → β → Except BdkError ω

/-- Constructor `Wallet::new` (lines 135-177): converts the database config,
converts the blockchain config (panicking when `stop_gap` does not fit in
`usize`), then materialises the database, the blockchain and the engine
wallet, propagating each failure with `?`. -/
def Wallet.new (E : WalletEngine δ β ω) (wordBits : Nat) (descriptor : String)
    (change_descriptor : Option String) (network : Network)
    (database_config : DatabaseConfig) (blockchain_config : BlockchainConfig) :
    Outcome ω :=
  let any_database_config := convertDatabaseConfig database_config
  match convertBlockchainConfig wordBits blockchain_config with
  | .panic => .panic
  | .err e => .err e
  | .ok any_blockchain_config =>
    match E.databaseFromConfig any_database_config with
    | .error e => .err e
    | .ok database =>
      match E.blockchainFromConfig any_blockchain_config with
      | .error e => .err e
      | .ok blockchain =>
        match E.walletNew descriptor change_descriptor network database blockchain with
        | .error e => .err e
        | .ok w => .ok w

/-! ### PSBT handle (`src/lib.rs`, lines 115-132) -/

/-- Abstract engine PSBT base64 codec: `PartiallySignedTransaction::from_str`
and its `Display` (`to_string`).  The type parameter is the engine's PSBT
value type. -/
structure PsbtCodec (π : Type) where
  fromStr : String → Except BdkError π
  toStr : π → String

/-- The binding's `PartiallySignedBitcoinTransaction` handle: it owns the
parsed engine PSBT value (the mutex is the sharing discipline across foreign
threads, invisible to the functional embedding). -/
structure PsbtHandle (π : Type) where
  internal : π
deriving DecidableEq

/-- Constructor `PartiallySignedBitcoinTransaction::new` (lines 121-126):
parses the base64 string with the engine codec, propagating the parse error
with `?`, and wraps the parsed value. -/
def psbtNew (c : PsbtCodec π) (psbt_base64 : String) : Except BdkError (PsbtHandle π) :=
  match c.fromStr psbt_base64 with
  | .error e => .error e
  | .ok psbt => .ok { internal := psbt }

/-- Method `PartiallySignedBitcoinTransaction::serialize` (lines 128-131):
clones the held value and renders it with the engine codec. -/
def psbtSerialize (c : PsbtCodec π) (h : PsbtHandle π) : String :=
  c.toStr h.internal

/-! ### Key helpers (`src/lib.rs`, lines 240-278) -/

/-- The record returned by the key helpers (lines 240-244). -/
structure ExtendedKeyInfo where
  mnemonic : String
  xprv : String
  fingerprint : String
deriving DecidableEq

/-- Abstract external key machinery used by the two free key helpers: the
BIP-39 codec (`Mnemonic::parse_in` with English, `Mnemonic::generate`, and
the mnemonic's `Display`), the conversion of (mnemonic, password) to an
extended key, the network-scoped xprv derivation (`into_xprv`, which returns
an `Option`), and the rendering of the xprv and of its fingerprint.  The
type parameters are the engine's mnemonic, extended-key and xprv types;
`generateMnemonic` takes the state of the process rng as an extra argument. -/
structure KeyEngine (μ ξ χ : Type) where
  parseMnemonic : String → Except BdkError μ
  mnemonicToString : μ → String
  intoExtendedKey : μ → Option String → Except BdkError ξ
  intoXprv : ξ → Network → Option χ
  xprvToString : χ → String
  fingerprint : χ → String
  generateMnemonic : WordCount → Nat → μ

/-- Free function `restore_extended_key` (lines 264-278): parses the mnemonic
with `.unwrap()` (a panic on an invalid mnemonic), converts it with the
password to an extended key (`?`), derives the network xprv with `.unwrap()`
(a panic when no xprv exists), and returns the three rendered strings. -/
def restore_extended_key (E : KeyEngine μ ξ χ) (network : Network)
    (mnemonic : String) (password : Option String) : Outcome ExtendedKeyInfo :=
  match E.parseMnemonic mnemonic with
  | .error _ => .panic
  | .ok m =>
    match E.intoExtendedKey m password with
    | .error e => .err e
    | .ok xkey =>
      match E.intoXprv xkey network with
      | none => .panic
      | some xprv =>
        .ok
          { mnemonic := E.mnemonicToString m
            xprv := E.xprvToString xprv
            fingerprint := E.fingerprint xprv }

/-- Free function `generate_extended_key` (lines 246-262): generates a fresh
mnemonic from the rng, then runs the same pipeline as
`restore_extended_key` on it. -/
def generate_extended_key (E : KeyEngine μ ξ χ) (network : Network)
    (word_count : WordCount) (password : Option String) (rng : Nat) :
    Outcome ExtendedKeyInfo :=
  match E.intoExtendedKey (E.generateMnemonic word_count rng) password with
  | .error e => .err e
  | .ok xkey =>
    match E.intoXprv xkey network with
    | none => .panic
    | some xprv =>
      .ok
        { mnemonic := E.mnemonicToString (E.generateMnemonic word_count rng)
          xprv := E.xprvToString xprv
          fingerprint := E.fingerprint xprv }

/-- Execution of `restore_extended_key` in a world carrying the process state
(the rng stream consumed by `Mnemonic::generate`, and any other ambient
state).  The body of `restore_extended_key` reads no such state and writes
none, so the embedding passes the world through untouched and the result is
a function of the arguments alone. -/
def restoreInWorld (E : KeyEngine μ ξ χ) (world : Nat) (network : Network)
    (mnemonic : String) (password : Option String) :
    Outcome ExtendedKeyInfo × Nat :=
  (restore_extended_key E network mnemonic password, world)

/-! ### Wallet::sign (`src/lib.rs`, lines 216-226) -/

/-- Abstract engine signer: `BdkWallet::sign(&mut psbt, SignOptions::default())`
takes the PSBT by mutable reference, so the embedding returns the engine
outcome (finalised flag or error) paired with the possibly mutated PSBT
value; `reprPsbt` is the Debug rendering used in the error message. -/
structure SignEngine (π : Type) where
  sign : π → Except BdkError Bool × π
  reprPsbt : π → String

/-- Method `Wallet::sign` (lines 216-226): asks the engine to sign, propagates
an engine error with `?`, returns unit when the engine reports the PSBT
finalised, and otherwise a Generic error formatted as
`"transaction signing not finalized {:?}"` over the post-sign PSBT.  The
result is paired with the new contents of the PSBT handle. -/
def Wallet.sign (E : SignEngine π) (psbt : PsbtHandle π) :
    Except BdkError Unit × PsbtHandle π :=
  match E.sign psbt.internal with
  | (.error e, p) => (.error e, { internal := p })
  | (.ok true, p) => (.ok (), { internal := p })
  | (.ok false, p) =>
    (.error (.Generic ("transaction signing not finalized " ++ E.reprPsbt p)),
      { internal := p })

/-! ### Wallet::broadcast (`src/lib.rs`, lines 233-237) -/

/-- Abstract engine operations for broadcast: `extract_tx` on a clone of the
PSBT contents, the blockchain `broadcast` returning a txid, and the txid's
hex rendering (`to_hex`). -/
structure BroadcastEngine (π τ ι : Type) where
  extractTx : π → τ
  broadcastTx : τ → Except BdkError ι
  toHex : ι → String

/-- Method `Wallet::broadcast` (lines 233-237): clones the PSBT contents,
extracts the transaction, broadcasts it (`?`), and returns the hex txid.
The PSBT handle itself is only read, so its contents are returned
unchanged. -/
def Wallet.broadcast (E : BroadcastEngine π τ ι) (psbt : PsbtHandle π) :
    Except BdkError String × PsbtHandle π :=
  let tx := E.extractTx psbt.internal
  match E.broadcastTx tx with
  | .error e => (.error e, psbt)
  | .ok txid => (.ok (E.toHex txid), psbt)

/-! ### TxBuilder::build (`src/lib.rs`, lines 280-284, 341-362) -/

/-- Abstract engine address machinery: `Address::from_str`, whose error case
carries the parse error already rendered by `to_string()`, and
`script_pubkey`.  The type parameters are the engine's address and script
types. -/
structure AddrEngine (α σ : Type) where
  fromStr : String → Except String α
  scriptPubkey : α → σ

/-- Free function `to_script_pubkey` (lines 280-284): parses the address,
maps a success to its script-pubkey and a failure to
`BdkError::Generic(e.to_string())`. -/
def to_script_pubkey (A : AddrEngine α σ) (address : String) : Except BdkError σ :=
  match A.fromStr address with
  | .error e => .error (.Generic e)
  | .ok a => .ok (A.scriptPubkey a)

/-- The parameters accumulated on the engine-side builder by
`TxBuilder::build` before `finish` is called. -/
structure EngineTxBuilderState (σ φ : Type) where
  recipients : List (σ × Nat)
  feeRate : Option φ
  drainWalletFlag : Bool
  drainToScript : Option σ
deriving DecidableEq

/-- Abstract engine `finish` step of the tx builder: consumes the accumulated
parameters and produces a PSBT value or an engine error. -/
structure FinishEngine (σ φ π : Type) where
  finish : EngineTxBuilderState σ φ → Except BdkError π

/-- The recipients loop of `TxBuilder::build` (lines 344-346): converts each
recipient address to a script-pubkey in order, aborting at the first parse
failure (the `?` inside the loop). -/
def convertRecipients (A : AddrEngine α σ) :
    List (String × Nat) → Except BdkError (List (σ × Nat))
  | [] => .ok []
  | (address, amount) :: rest =>
    match to_script_pubkey A address with
    | .error e => .error e
    | .ok s =>
      match convertRecipients A rest with
      | .error e => .error e
      | .ok ss => .ok ((s, amount) :: ss)

/-- Method `TxBuilder::build` (lines 341-362): applies the recipients (parsing
each address, `?`), the optional fee rate, the drain-wallet flag, and the
optional drain-to destination (parsing its address, `?`), in that order, then
finishes and wraps the resulting PSBT in a fresh handle. -/
def TxBuilder.build (A : AddrEngine α σ) (F : FinishEngine σ φ π) (b : TxBuilder φ) :
    Except BdkError (PsbtHandle π) :=
  match convertRecipients A b.recipients with
  | .error e => .error e
  | .ok rs =>
    match b.drain_to with
    | none =>
      match F.finish
          { recipients := rs
            feeRate := b.fee_rate
            drainWalletFlag := b.drain_wallet
            drainToScript := none } with
      | .error e => .error e
      | .ok psbt => .ok { internal := psbt }
    | some address =>
      match to_script_pubkey A address with
      | .error e => .error e
      | .ok s =>
        match F.finish
            { recipients := rs
              feeRate := b.fee_rate
              drainWalletFlag := b.drain_wallet
              drainToScript := some s } with
        | .error e => .error e
        | .ok psbt => .ok { internal := psbt }

/-! ### Concrete engine instances used by witnesses and counterexamples -/

/-- A concrete PSBT codec over `Nat` PSBT values, used to witness the
round-trip theorem at a concrete input. -/
def psbtCodecW : PsbtCodec Nat where
  fromStr := fun s => if s = "cHNidP8BAA==" then .ok 0 else .error (.Generic "decode error")
  toStr := fun _ => "cHNidP8BAA=="

/-- A concrete key engine over `Nat` mnemonic, extended-key and xprv values,
used to witness the key-helper theorems at concrete inputs. -/
def keyEngineW : KeyEngine Nat Nat Nat where
  parseMnemonic := fun s => if s = "m0" then .ok 0 else .error (.Generic "invalid mnemonic")
  mnemonicToString := fun _ => "m0"
  intoExtendedKey := fun m _ => .ok m
  intoXprv := fun x _ => some x
  xprvToString := fun _ => "xprv0"
  fingerprint := fun _ => "fp0"
  generateMnemonic := fun _ _ => 0

/-- A concrete address engine over `Nat` addresses and scripts.  Its one
failing input renders its parse error the way the external address parser
does: a description of the parse failure that does not embed the input
string (`rust-bitcoin` renders, for example, a bad base58 character or a bad
bech32 checksum, never the whole offending address). -/
def addrEngineW : AddrEngine Nat Nat where
  fromStr := fun a => if a = "zz" then .error "invalid address" else .ok 0
  scriptPubkey := fun a => a

/-- A concrete finish step that always succeeds with a `Nat` PSBT value. -/
def finishEngineW : FinishEngine Nat Nat Nat where
  finish := fun _ => .ok 0

/-! ### Helper lemmas -/

/-- Field-wise description of a sequence of configuration calls, by induction
over the call list. -/
theorem applyCalls_fields (b : TxBuilder φ) (cs : List (ConfigCall φ)) :
    (applyCalls b cs).recipients = b.recipients ++ accumRecipients cs ∧
    (applyCalls b cs).fee_rate = accumFeeRate b.fee_rate cs ∧
    (applyCalls b cs).drain_wallet = accumDrainWallet b.drain_wallet cs ∧
    (applyCalls b cs).drain_to = accumDrainTo b.drain_to cs := by
  induction cs generalizing b with
  | nil =>
    simp [applyCalls, accumRecipients, accumFeeRate, accumDrainWallet, accumDrainTo]
  | cons c cs ih =>
    have step : applyCalls b (c :: cs) = applyCalls (applyCall b c) cs := rfl
    rw [step]
    obtain ⟨h1, h2, h3, h4⟩ := ih (applyCall b c)
    cases c with
    | addRecipient address amount =>
      refine ⟨?_, ?_, ?_, ?_⟩
      · rw [h1]
        simp [applyCall, TxBuilder.add_recipient, accumRecipients]
      · rw [h2]; rfl
      · rw [h3]; rfl
      · rw [h4]; rfl
    | feeRate sat_per_vb =>
      exact ⟨h1, h2, h3, h4⟩
    | drainWallet =>
      exact ⟨h1, h2, h3, h4⟩
    | drainTo address =>
      exact ⟨h1, h2, h3, h4⟩

/-- The fixed prefix of the sign error message contains "not finalized" no
matter what the Debug rendering of the PSBT appends. -/
theorem notFinalized_substr (s : String) :
    ContainsSubstr "not finalized" ("transaction signing not finalized " ++ s) := by
  unfold ContainsSubstr
  refine ⟨"transaction signing ".data, (" " ++ s).data, ?_⟩
  have h : ("transaction signing not finalized " : String) =
      "transaction signing " ++ "not finalized" ++ " " := rfl
  rw [string_data_append, h, string_data_append, string_data_append,
    string_data_append]
  simp [List.append_assoc]

/-- A recipient list whose prefix parses and whose next address fails makes
the conversion loop abort with the parse error's rendered text. -/
theorem convertRecipients_failure (A : AddrEngine α σ) (pre : List (String × Nat))
    (address : String) (amount : Nat) (rest : List (String × Nat)) (e : String)
    (hpre : ∀ x ∈ pre, ∃ s, A.fromStr x.1 = .ok s)
    (hfail : A.fromStr address = .error e) :
    convertRecipients A (pre ++ (address, amount) :: rest) = .error (.Generic e) := by
  induction pre with
  | nil =>
    simp [convertRecipients, to_script_pubkey, hfail]
  | cons x xs ih =>
    obtain ⟨s, hs⟩ := hpre x (List.mem_cons_self x xs)
    have hxs : ∀ y ∈ xs, ∃ s, A.fromStr y.1 = .ok s :=
      fun y hy => hpre y (List.mem_cons_of_mem x hy)
    obtain ⟨xa, xn⟩ := x
    simp [convertRecipients, to_script_pubkey, hs, ih hxs]

/-- An Electrum config whose `stop_gap` does not fit in `usize` makes the
config conversion panic. -/
theorem convertBlockchainConfig_electrum_panic (wordBits : Nat) (c : ElectrumConfig)
    (h : usizeTryFrom wordBits c.stop_gap = none) :
    convertBlockchainConfig wordBits (.electrum c) = .panic := by
  have hred : convertBlockchainConfig wordBits (.electrum c) =
      match usizeTryFrom wordBits c.stop_gap with
      | none => Outcome.panic
      | some g =>
        Outcome.ok (.electrum
          { retry := c.retry, socks5 := c.socks5, timeout := c.timeout
            url := c.url, stop_gap := g }) := rfl
  rw [hred, h]

/-- An Esplora config whose `stop_gap` does not fit in `usize` makes the
config conversion panic. -/
theorem convertBlockchainConfig_esplora_panic (wordBits : Nat) (c : EsploraConfig)
    (h : usizeTryFrom wordBits c.stop_gap = none) :
    convertBlockchainConfig wordBits (.esplora c) = .panic := by
  have hred : convertBlockchainConfig wordBits (.esplora c) =
      match usizeTryFrom wordBits c.stop_gap with
      | none => Outcome.panic
      | some g =>
        Outcome.ok (.esplora
          { base_url := c.base_url, proxy := c.proxy, timeout_read := c.timeout_read
            timeout_write := c.timeout_write, stop_gap := g }) := rfl
  rw [hred, h]

/-- When the blockchain-config conversion panics, `Wallet::new` panics,
whatever the engine is: none of the engine operations is reached. -/
theorem wallet_new_panic_of_convert_panic (E : WalletEngine δ β ω) (wordBits : Nat)
    (descriptor : String) (change_descriptor : Option String) (network : Network)
    (database_config : DatabaseConfig) (blockchain_config : BlockchainConfig)
    (h : convertBlockchainConfig wordBits blockchain_config = .panic) :
    Wallet.new E wordBits descriptor change_descriptor network database_config
      blockchain_config = .panic := by
  unfold Wallet.new
  rw [h]

/-- The value `u64::MAX` does not fit in a 32-bit `usize`. -/
theorem usizeTryFrom_u64_max_32 : usizeTryFrom 32 (2 ^ 64 - 1) = none := by
  unfold usizeTryFrom
  norm_num

/-! ### Claim theorems -/

/-- C4: every configuration call on a `TxBuilder` returns a new builder equal
to the original with exactly the named field changed (`add_recipient` appends
one (address, amount) pair, the other three fields are copied; likewise for
the other three methods), and — the methods being pure copies, the original
handle is untouched — the builder reached by any sequence of configuration
calls has exactly the accumulated `recipients`, `fee_rate`, `drain_wallet`
and `drain_to`. -/
theorem txBuilder_config_accumulation (φ : Type) :
    (∀ (b : TxBuilder φ) (a : String) (n : Nat),
      b.add_recipient a n = { b with recipients := b.recipients ++ [(a, n)] }) ∧
    (∀ (b : TxBuilder φ) (r : φ), b.feeRate r = { b with fee_rate := some r }) ∧
    (∀ b : TxBuilder φ, b.drainWallet = { b with drain_wallet := true }) ∧
    (∀ (b : TxBuilder φ) (a : String), b.drainTo a = { b with drain_to := some a }) ∧
    (∀ (b : TxBuilder φ) (cs : List (ConfigCall φ)),
      (applyCalls b cs).recipients = b.recipients ++ accumRecipients cs ∧
      (applyCalls b cs).fee_rate = accumFeeRate b.fee_rate cs ∧
      (applyCalls b cs).drain_wallet = accumDrainWallet b.drain_wallet cs ∧
      (applyCalls b cs).drain_to = accumDrainTo b.drain_to cs) :=
  ⟨fun _ _ _ => rfl, fun _ _ => rfl, fun _ => rfl, fun _ _ => rfl,
    fun b cs => applyCalls_fields b cs⟩

/-- C8 counterexample: the engine-to-binding conversion does not carry
`Peek {index}` across — at index 5 it hits the `panic!("Mmmm not working")`
wildcard arm instead of producing `Peek 5`, so the conversion is not total
in the engine-to-binding direction. -/
theorem addressIndexFromBdk_peek_panics :
    addressIndexFromBdk (BdkAddressIndex.peek 5) = Outcome.panic ∧
    addressIndexFromBdk (BdkAddressIndex.peek 5) ≠ Outcome.ok (AddressIndex.peek 5) := by
  exact ⟨rfl, by decide⟩

/-- C8 amended: the binding-to-engine conversion is total, with New mapped to
New, LastUnused to LastUnused and Peek carrying its index verbatim; the
engine-to-binding conversion maps New and LastUnused across but panics on
every other engine variant, including Peek. -/
theorem addressIndex_conversion_spec :
    addressIndexToBdk AddressIndex.new = BdkAddressIndex.new ∧
    addressIndexToBdk AddressIndex.lastUnused = BdkAddressIndex.lastUnused ∧
    (∀ i, addressIndexToBdk (AddressIndex.peek i) = BdkAddressIndex.peek i) ∧
    addressIndexFromBdk BdkAddressIndex.new = Outcome.ok AddressIndex.new ∧
    addressIndexFromBdk BdkAddressIndex.lastUnused = Outcome.ok AddressIndex.lastUnused ∧
    (∀ i, addressIndexFromBdk (BdkAddressIndex.peek i) = Outcome.panic) ∧
    (∀ i, addressIndexFromBdk (BdkAddressIndex.reset i) = Outcome.panic) :=
  ⟨rfl, rfl, fun _ => rfl, rfl, rfl, fun _ => rfl, fun _ => rfl⟩

/-- C9: `Wallet::broadcast` only reads the PSBT handle (it clones the
contents and extracts the transaction), so whether the broadcast succeeds or
fails the handle's contents — and therefore its base64 serialization — are
the same before and after the call. -/
theorem broadcast_preserves_psbt (E : BroadcastEngine π τ ι) (c : PsbtCodec π)
    (psbt : PsbtHandle π) :
    (Wallet.broadcast E psbt).2 = psbt ∧
    psbtSerialize c (Wallet.broadcast E psbt).2 = psbtSerialize c psbt := by
  cases hb : E.broadcastTx (E.extractTx psbt.internal) <;>
    simp [Wallet.broadcast, hb]

/-- C10: `restore_extended_key` reads and writes no ambient state, so its
outcome is a function of (network, mnemonic, password) alone: two calls in
any two world states return the same result (in particular identical
mnemonic, xprv and fingerprint strings on success) and leave the world
untouched. -/
theorem restore_deterministic (E : KeyEngine μ ξ χ) (w₁ w₂ : Nat) (network : Network)
    (mnemonic : String) (password : Option String) :
    (restoreInWorld E w₁ network mnemonic password).1 =
      (restoreInWorld E w₂ network mnemonic password).1 ∧
    (restoreInWorld E w₁ network mnemonic password).2 = w₁ ∧
    (∀ e₁ e₂,
      (restoreInWorld E w₁ network mnemonic password).1 = .ok e₁ →
      (restoreInWorld E w₂ network mnemonic password).1 = .ok e₂ →
      e₁.mnemonic = e₂.mnemonic ∧ e₁.xprv = e₂.xprv ∧ e₁.fingerprint = e₂.fingerprint) := by
  refine ⟨rfl, rfl, fun e₁ e₂ h₁ h₂ => ?_⟩
  cases h₁.symm.trans h₂
  exact ⟨rfl, rfl, rfl⟩

/-- C1: on a 32-bit platform, `Wallet::new` with an Electrum or Esplora
config whose `stop_gap` is `u64::MAX` does not return an `Err` and does not
truncate — the `usize::try_from(stop_gap).unwrap()` panics, whatever the
engine would do: the outcome is a panic for every engine, so the engine is
never consulted, but no conversion/range *error* is returned either. -/
theorem wallet_new_stop_gap_overflow (δ β ω : Type) (E : WalletEngine δ β ω)
    (descriptor : String) (change_descriptor : Option String) (network : Network)
    (database_config : DatabaseConfig) (url : String) (socks5 : Option String)
    (retry : Nat) (timeout : Option Nat) (proxy : Option String)
    (timeout_read timeout_write : Nat) :
    Wallet.new E 32 descriptor change_descriptor network database_config
        (.electrum
          { url := url, socks5 := socks5, retry := retry, timeout := timeout
            stop_gap := 2 ^ 64 - 1 }) = .panic ∧
    Wallet.new E 32 descriptor change_descriptor network database_config
        (.esplora
          { base_url := url, proxy := proxy, timeout_read := timeout_read
            timeout_write := timeout_write, stop_gap := 2 ^ 64 - 1 }) = .panic ∧
    (∀ e, Wallet.new E 32 descriptor change_descriptor network database_config
        (.electrum
          { url := url, socks5 := socks5, retry := retry, timeout := timeout
            stop_gap := 2 ^ 64 - 1 }) ≠ .err e) := by
  have hel :
      Wallet.new E 32 descriptor change_descriptor network database_config
        (.electrum
          { url := url, socks5 := socks5, retry := retry, timeout := timeout
            stop_gap := 2 ^ 64 - 1 }) = .panic :=
    wallet_new_panic_of_convert_panic E 32 descriptor change_descriptor network
      database_config _
      (convertBlockchainConfig_electrum_panic 32 _ usizeTryFrom_u64_max_32)
  have hes :
      Wallet.new E 32 descriptor change_descriptor network database_config
        (.esplora
          { base_url := url, proxy := proxy, timeout_read := timeout_read
            timeout_write := timeout_write, stop_gap := 2 ^ 64 - 1 }) = .panic :=
    wallet_new_panic_of_convert_panic E 32 descriptor change_descriptor network
      database_config _
      (convertBlockchainConfig_esplora_panic 32 _ usizeTryFrom_u64_max_32)
  refine ⟨hel, hes, fun e h => ?_⟩
  rw [hel] at h
  exact Outcome.noConfusion h

/-- C2: a base64 string accepted by the engine codec parses into a handle
that serializes back through the engine codec; when the string is canonical
(as every string produced by a conforming encoder is), the round trip
returns it verbatim. -/
theorem psbt_roundtrip (c : PsbtCodec π) (s : String) (p : π)
    (hparse : c.fromStr s = .ok p) (hcanon : c.toStr p = s) :
    ∃ h, psbtNew c s = .ok h ∧ psbtSerialize c h = s := by
  refine ⟨{ internal := p }, ?_, ?_⟩
  · simp [psbtNew, hparse]
  · simp [psbtSerialize, hcanon]

/-- C2 witness: the round trip at a concrete codec and string. -/
theorem psbt_roundtrip_witness :
    ∃ h, psbtNew psbtCodecW "cHNidP8BAA==" = .ok h ∧
      psbtSerialize psbtCodecW h = "cHNidP8BAA==" :=
  psbt_roundtrip psbtCodecW "cHNidP8BAA==" 0 rfl rfl

/-- C3: when `generate_extended_key` succeeds, feeding the returned mnemonic
back into `restore_extended_key` with the same network and password returns
the same xprv and fingerprint (given the external BIP-39 contract that a
mnemonic's rendering parses back to itself). -/
theorem generate_restore_roundtrip (E : KeyEngine μ ξ χ) (network : Network)
    (word_count : WordCount) (password : Option String) (rng : Nat)
    (e : ExtendedKeyInfo)
    (hgen : generate_extended_key E network word_count password rng = .ok e)
    (hparse : E.parseMnemonic (E.mnemonicToString (E.generateMnemonic word_count rng)) =
      .ok (E.generateMnemonic word_count rng)) :
    ∃ e', restore_extended_key E network e.mnemonic password = .ok e' ∧
      e'.xprv = e.xprv ∧ e'.fingerprint = e.fingerprint := by
  unfold generate_extended_key at hgen
  cases hek : E.intoExtendedKey (E.generateMnemonic word_count rng) password with
  | error err =>
    rw [hek] at hgen
    simp at hgen
  | ok xkey =>
    rw [hek] at hgen
    simp at hgen
    cases hxp : E.intoXprv xkey network with
    | none =>
      rw [hxp] at hgen
      simp at hgen
    | some xprv =>
      rw [hxp] at hgen
      simp at hgen
      subst hgen
      refine ⟨⟨E.mnemonicToString (E.generateMnemonic word_count rng),
        E.xprvToString xprv, E.fingerprint xprv⟩, ?_, rfl, rfl⟩
      simp [restore_extended_key, hparse, hek, hxp]

/-- C3 witness: the round trip at a concrete key engine. -/
theorem generate_restore_roundtrip_witness :
    ∃ e', restore_extended_key keyEngineW Network.testnet "m0" none = .ok e' ∧
      e'.xprv = "xprv0" ∧ e'.fingerprint = "fp0" :=
  generate_restore_roundtrip keyEngineW Network.testnet WordCount.words12 none 0
    { mnemonic := "m0", xprv := "xprv0", fingerprint := "fp0" } rfl rfl

/-- C5 counterexample: a builder whose single recipient address fails to
parse aborts `build` with `BdkError::Generic` carrying the parse error's
rendered text ("invalid address" under the concrete address engine, which
renders parse failures the way the external parser does, without embedding
the input), so the message does not include the offending address "zz". -/
theorem build_error_message_lacks_address :
    TxBuilder.build addrEngineW finishEngineW
        ((TxBuilder.new Nat).add_recipient "zz" 100) =
      .error (.Generic "invalid address") ∧
    ¬ ContainsSubstr "zz" "invalid address" := by
  constructor
  · rfl
  · decide

/-- C5 amended: a recipient or drain_to address that fails to parse aborts
`TxBuilder::build` with `BdkError::Generic` whose message is exactly the
parse error rendered by the external parser (`e.to_string()`); the binding
adds nothing — in particular not the offending address string — to it. -/
theorem build_parse_failure (A : AddrEngine α σ) (F : FinishEngine σ φ π)
    (b : TxBuilder φ) :
    (∀ pre address amount rest e,
      b.recipients = pre ++ (address, amount) :: rest →
      (∀ x ∈ pre, ∃ s, A.fromStr x.1 = .ok s) →
      A.fromStr address = .error e →
      TxBuilder.build A F b = .error (.Generic e)) ∧
    (∀ address e rs,
      convertRecipients A b.recipients = .ok rs →
      b.drain_to = some address →
      A.fromStr address = .error e →
      TxBuilder.build A F b = .error (.Generic e)) := by
  constructor
  · intro pre address amount rest e hsplit hpre hfail
    have hconv : convertRecipients A b.recipients = .error (.Generic e) := by
      rw [hsplit]
      exact convertRecipients_failure A pre address amount rest e hpre hfail
    unfold TxBuilder.build
    rw [hconv]
  · intro address e rs hconv hdrain hfail
    unfold TxBuilder.build
    rw [hconv, hdrain]
    simp [to_script_pubkey, hfail]

/-- C5 amended, witness: the first failing recipient aborts the build at a
concrete engine and builder. -/
theorem build_parse_failure_witness :
    TxBuilder.build addrEngineW finishEngineW
        ((TxBuilder.new Nat).add_recipient "ok1" 7 |>.add_recipient "zz" 100) =
      .error (.Generic "invalid address") :=
  (build_parse_failure addrEngineW finishEngineW
      ((TxBuilder.new Nat).add_recipient "ok1" 7 |>.add_recipient "zz" 100)).1
    [("ok1", 7)] "zz" 100 [] "invalid address" rfl
    (by
      intro x hx
      refine ⟨0, ?_⟩
      have hx1 : x = ("ok1", 7) := by simpa using hx
      rw [hx1]
      rfl)
    rfl

/-- C6: `restore_extended_key` on a mnemonic the BIP-39 parser rejects does
not return an `Err` — the `.unwrap()` on `Mnemonic::parse_in` panics, before
any later pipeline stage runs. -/
theorem restore_invalid_mnemonic (E : KeyEngine μ ξ χ) (network : Network)
    (mnemonic : String) (password : Option String) (err : BdkError)
    (hbad : E.parseMnemonic mnemonic = .error err) :
    restore_extended_key E network mnemonic password = .panic ∧
    ∀ e, restore_extended_key E network mnemonic password ≠ .err e := by
  unfold restore_extended_key
  rw [hbad]
  simp

/-- C6 witness: the panic at a concrete key engine and invalid mnemonic. -/
theorem restore_invalid_mnemonic_witness :
    restore_extended_key keyEngineW Network.testnet "xyz" none = .panic ∧
    ∀ e, restore_extended_key keyEngineW Network.testnet "xyz" none ≠ .err e :=
  restore_invalid_mnemonic keyEngineW Network.testnet "xyz" none
    (.Generic "invalid mnemonic") rfl

/-- C7: `Wallet::sign` returns unit exactly when the engine reports the PSBT
finalised after signing; when the engine reports it not finalised the result
is a Generic error whose message contains "not finalized"; an engine signing
error is propagated unchanged. -/
theorem sign_spec (E : SignEngine π) (psbt : PsbtHandle π) :
    ((Wallet.sign E psbt).1 = .ok () ↔ (E.sign psbt.internal).1 = .ok true) ∧
    ((E.sign psbt.internal).1 = .ok false →
      ∃ msg, (Wallet.sign E psbt).1 = .error (.Generic msg) ∧
        ContainsSubstr "not finalized" msg) ∧
    (∀ e, (E.sign psbt.internal).1 = .error e → (Wallet.sign E psbt).1 = .error e) := by
  rcases hs : E.sign psbt.internal with ⟨r, p⟩
  cases r with
  | error e =>
    refine ⟨?_, ?_, ?_⟩
    · simp [Wallet.sign, hs]
    · simp [hs]
    · simp [Wallet.sign, hs]
  | ok b =>
    cases b with
    | true =>
      refine ⟨?_, ?_, ?_⟩
      · simp [Wallet.sign, hs]
      · simp [hs]
      · simp [hs]
    | false =>
      refine ⟨?_, ?_, ?_⟩
      · simp [Wallet.sign, hs]
      · intro _
        refine ⟨"transaction signing not finalized " ++ E.reprPsbt p, ?_,
          notFinalized_substr _⟩
        simp [Wallet.sign, hs]
      · simp [hs]

end BdkFfi
